import Mathlib

set_option maxHeartbeats 1000000

namespace F1Pulse

/-! Shallow embedding of the F1-Pulse front-end core logic.

Geocoordinate resolver: getRaceCoordinates and its static tables in
src/app/components/RaceMap.tsx. Coordinates are decimal degrees with at
most six fractional digits; they are embedded exactly as integers in
micro-degrees (degrees times 10^6), so 26.0325 becomes 26032500 and the
default fallback [20, 0] becomes (20000000, 0).

Prediction/actual comparison view-model: the scatterData and
comparisonTable derivations of the compare page component.

Display-name formatting: formatDriverName of the image utility module. -/

/-- A latitude/longitude pair in integer micro-degrees. -/
abbrev Coord := Int × Int

/-- Race metadata as received from the prediction API
(interface RaceInfo in src/app/components/RaceMap.tsx). -/
structure RaceInfo where
  raceId : Int
  label : String
  name : String
  circuit : String
  location : String
  country : String
  round : Int
  date : String
  year : Int
deriving DecidableEq

/-- Lowercasing of a string, character by character. The source uses
JavaScript toLowerCase; every key in the static tables is unchanged by
lowercasing outside the ASCII range, where the two functions agree. -/
def toLowerStr (s : String) : String := String.mk (s.data.map Char.toLower)

/-- F1 circuit coordinates mapping (CIRCUIT_COORDINATES in RaceMap.tsx),
in object-literal insertion order, which is the iteration order of
Object.entries for these string keys. Values in micro-degrees. -/
def CIRCUIT_COORDINATES : List (String × Coord) := [
  ("Bahrain International Circuit", 26032500, 50510556),
  ("Bahrain", 26032500, 50510556),
  ("Sakhir", 26032500, 50510556),
  ("Jeddah Corniche Circuit", 21631900, 39104400),
  ("Saudi Arabia", 21631900, 39104400),
  ("Jeddah", 21631900, 39104400),
  ("Albert Park Circuit", -37849722, 144968333),
  ("Australia", -37849722, 144968333),
  ("Melbourne", -37849722, 144968333),
  ("Shanghai International Circuit", 31338900, 121220000),
  ("China", 31338900, 121220000),
  ("Shanghai", 31338900, 121220000),
  ("Suzuka International Racing Course", 34843056, 136540556),
  ("Japan", 34843056, 136540556),
  ("Suzuka", 34843056, 136540556),
  ("Miami International Autodrome", 25958100, -80238900),
  ("Miami", 25958100, -80238900),
  ("Autodromo Enzo e Dino Ferrari", 44343900, 11716700),
  ("Imola", 44343900, 11716700),
  ("Emilia Romagna", 44343900, 11716700),
  ("Circuit de Monaco", 43734722, 7420556),
  ("Monaco", 43734722, 7420556),
  ("Circuit de Barcelona-Catalunya", 41570000, 2261111),
  ("Spain", 41570000, 2261111),
  ("Barcelona", 41570000, 2261111),
  ("Catalunya", 41570000, 2261111),
  ("Circuit Gilles-Villeneuve", 45505833, -73526667),
  ("Canada", 45505833, -73526667),
  ("Montreal", 45505833, -73526667),
  ("Red Bull Ring", 47219700, 14764700),
  ("Austria", 47219700, 14764700),
  ("Spielberg", 47219700, 14764700),
  ("Silverstone Circuit", 52071000, -1016000),
  ("United Kingdom", 52071000, -1016000),
  ("Silverstone", 52071000, -1016000),
  ("Great Britain", 52071000, -1016000),
  ("Hungaroring", 47578889, 19248611),
  ("Hungary", 47578889, 19248611),
  ("Budapest", 47578889, 19248611),
  ("Circuit de Spa-Francorchamps", 50437222, 5971389),
  ("Belgium", 50437222, 5971389),
  ("Spa", 50437222, 5971389),
  ("Spa-Francorchamps", 50437222, 5971389),
  ("Circuit Zandvoort", 52388800, 4540900),
  ("Netherlands", 52388800, 4540900),
  ("Zandvoort", 52388800, 4540900),
  ("Dutch", 52388800, 4540900),
  ("Autodromo Nazionale Monza", 45620556, 9289444),
  ("Monza", 45620556, 9289444),
  ("Italy (Monza)", 45620556, 9289444),
  ("Baku City Circuit", 40372500, 49853300),
  ("Azerbaijan", 40372500, 49853300),
  ("Baku", 40372500, 49853300),
  ("Marina Bay Street Circuit", 1291403, 103864147),
  ("Singapore", 1291403, 103864147),
  ("Marina Bay", 1291403, 103864147),
  ("Circuit of the Americas", 30132800, -97641100),
  ("COTA", 30132800, -97641100),
  ("Austin", 30132800, -97641100),
  ("Texas", 30132800, -97641100),
  ("Las Vegas Strip Circuit", 36101700, -115160500),
  ("Las Vegas", 36101700, -115160500),
  ("Vegas", 36101700, -115160500),
  ("Nevada", 36101700, -115160500),
  ("Autódromo Hermanos Rodríguez", 19404200, -99090700),
  ("Mexico", 19404200, -99090700),
  ("Mexico City", 19404200, -99090700),
  ("Autódromo José Carlos Pace", -23703611, -46699722),
  ("Brazil", -23703611, -46699722),
  ("São Paulo", -23703611, -46699722),
  ("Interlagos", -23703611, -46699722),
  ("Lusail International Circuit", 25490100, 51454200),
  ("Qatar", 25490100, 51454200),
  ("Lusail", 25490100, 51454200),
  ("Yas Marina Circuit", 24467222, 54603056),
  ("Abu Dhabi", 24467222, 54603056),
  ("Yas Marina", 24467222, 54603056),
  ("United Arab Emirates", 24467222, 54603056)]

/-- Fallback coordinates by country (COUNTRY_COORDINATES in
RaceMap.tsx), in micro-degrees. -/
def COUNTRY_COORDINATES : List (String × Coord) := [
  ("Bahrain", 26032500, 50510556),
  ("Saudi Arabia", 21631900, 39104400),
  ("Australia", -37849722, 144968333),
  ("China", 31338900, 121220000),
  ("Japan", 34843056, 136540556),
  ("United States", 30132800, -97641100),
  ("Italy", 44343900, 11716700),
  ("Monaco", 43734722, 7420556),
  ("Spain", 41570000, 2261111),
  ("Canada", 45505833, -73526667),
  ("Austria", 47219700, 14764700),
  ("United Kingdom", 52071000, -1016000),
  ("Hungary", 47578889, 19248611),
  ("Belgium", 50437222, 5971389),
  ("Netherlands", 52388800, 4540900),
  ("Azerbaijan", 40372500, 49853300),
  ("Singapore", 1291403, 103864147),
  ("Mexico", 19404200, -99090700),
  ("Brazil", -23703611, -46699722),
  ("Qatar", 25490100, 51454200),
  ("United Arab Emirates", 24467222, 54603056)]

/-- JavaScript String.includes: true iff sub occurs as a contiguous
substring of s (always true for the empty sub). -/
def strIncludes (s sub : String) : Bool :=
  s.data.tails.any (fun t => sub.data.isPrefixOf t)

/-- The findKey helper inside getRaceCoordinates (RaceMap.tsx):
case-insensitive exact lookup first, then a partial-match pass where the
search value may contain the key or the key contain the search value; a
falsy (empty) search value returns null immediately. -/
def findKey (searchValue : String) (mapping : List (String × Coord)) :
    Option Coord :=
  if searchValue = "" then none
  else
    match mapping.find? (fun kv => toLowerStr kv.1 == toLowerStr searchValue) with
    | some kv => some kv.2
    | none =>
      match mapping.find? (fun kv =>
          strIncludes (toLowerStr searchValue) (toLowerStr kv.1) ||
          strIncludes (toLowerStr kv.1) (toLowerStr searchValue)) with
      | some kv => some kv.2
      | none => none

/-- The country tail of getRaceCoordinates: the case-sensitive property
access COUNTRY_COORDINATES[race.country] first, then findKey over the
country table, then the default fallback [20, 0]. -/
def resolveCountry (country : String) : Coord :=
  match COUNTRY_COORDINATES.find? (fun kv => kv.1 == country) with
  | some kv => kv.2
  | none =>
    match findKey country COUNTRY_COORDINATES with
    | some c => c
    | none => (20000000, 0)

/-- getRaceCoordinates (RaceMap.tsx): circuit first, then location, then
the country chain ending in the default fallback. -/
def getRaceCoordinates (race : RaceInfo) : Coord :=
  match findKey race.circuit CIRCUIT_COORDINATES with
  | some c => c
  | none =>
    match findKey race.location CIRCUIT_COORDINATES with
    | some c => c
    | none => resolveCountry race.country

/-- Every coordinate pair getRaceCoordinates can produce: all table
values plus the default fallback. -/
def allCoords : List Coord :=
  CIRCUIT_COORDINATES.map Prod.snd ++
    (COUNTRY_COORDINATES.map Prod.snd ++ [(20000000, 0)])

/-- A search string matches a table key if it is equal to it
case-insensitively or either lowered string contains the other
(the two phases of findKey). -/
def keyMatches (s k : String) : Bool :=
  toLowerStr k == toLowerStr s ||
  strIncludes (toLowerStr s) (toLowerStr k) ||
  strIncludes (toLowerStr k) (toLowerStr s)

/-- A single predicted finishing position (interface DriverPrediction
on the compare page). -/
structure DriverPrediction where
  driverRef : String
  driver_name : String
  team : String
  predicted_position : Int
  grid_position : Option Int
deriving DecidableEq

/-- A single actual race result (interface ActualResult on the compare
page). -/
structure ActualResult where
  driverRef : String
  driver_name : String
  team : String
  finish_position : Int
  grid_position : Option Int
deriving DecidableEq

/-- One row of the detailed driver comparison table built by the
compare page. -/
structure ComparisonRow where
  driver : String
  team : String
  predicted : Int
  actual : Int
  error : Int
  absError : Int
deriving DecidableEq

/-- One point of the predicted-versus-actual scatter plot built by the
compare page. -/
structure ScatterPoint where
  driver : String
  predicted : Int
  actual : Int
  error : Int
deriving DecidableEq

/-- The body of the map callback building comparisonTable: find the
actual result whose driverRef equals that of the prediction, and if present
build the row with signed error and absolute error. -/
def rowFor (actuals : List ActualResult) (pred : DriverPrediction) :
    Option ComparisonRow :=
  match actuals.find? (fun a => a.driverRef == pred.driverRef) with
  | some actual =>
    some { driver := pred.driverRef
           team := pred.team
           predicted := pred.predicted_position
           actual := actual.finish_position
           error := pred.predicted_position - actual.finish_position
           absError := |pred.predicted_position - actual.finish_position| }
  | none => none

/-- The comparator of the final .sort call: ascending actual finishing
position. -/
def rowLE (a b : ComparisonRow) : Prop := a.actual ≤ b.actual

instance : DecidableRel rowLE := fun a b =>
  inferInstanceAs (Decidable (a.actual ≤ b.actual))

instance : IsTotal ComparisonRow rowLE :=
  ⟨fun a b => Int.le_total a.actual b.actual⟩

instance : IsTrans ComparisonRow rowLE :=
  ⟨fun _ _ _ h1 h2 => Int.le_trans h1 h2⟩

/-- comparisonTable on the compare page: when actual results are null
the table is the empty list; otherwise each prediction is joined with
its matching actual (unmatched predictions filtered out) and the rows
are sorted by ascending actual position with a stable sort, as
JavaScript Array.prototype.sort is. -/
def comparisonTable (predictions : List DriverPrediction)
    (actual_results : Option (List ActualResult)) : List ComparisonRow :=
  match actual_results with
  | none => []
  | some actuals =>
    List.insertionSort rowLE (predictions.filterMap (rowFor actuals))

/-- The body of the map callback building scatterData: like rowFor but
the error field holds the absolute error and no sort follows. -/
def scatterFor (actuals : List ActualResult) (pred : DriverPrediction) :
    Option ScatterPoint :=
  match actuals.find? (fun a => a.driverRef == pred.driverRef) with
  | some actual =>
    some { driver := pred.driverRef
           predicted := pred.predicted_position
           actual := actual.finish_position
           error := |pred.predicted_position - actual.finish_position| }
  | none => none

/-- scatterData on the compare page: empty when actual results are
null, otherwise the matched predictions in prediction order. -/
def scatterData (predictions : List DriverPrediction)
    (actual_results : Option (List ActualResult)) : List ScatterPoint :=
  match actual_results with
  | none => []
  | some actuals => predictions.filterMap (scatterFor actuals)

/-- A JavaScript word character as matched by the regex class w used in
formatDriverName: ASCII letters, digits and the underscore. -/
def isWordChar (c : Char) : Bool := c.isAlphanum || c == '_'

/-- The global regex replacement of a word character at a word boundary
by its uppercase form, as a left-to-right scan; the Bool argument
records whether the previous character was a word character. -/
def titleCaseGo : Bool → List Char → List Char
  | _, [] => []
  | prev, c :: cs =>
    (if isWordChar c && !prev then c.toUpper else c) ::
      titleCaseGo (isWordChar c) cs

/-- formatDriverName in the image utility module: replace every
underscore by a space, then uppercase every word character that follows
a word boundary. -/
def formatDriverName (name : String) : String :=
  String.mk (titleCaseGo false
    (name.data.map (fun c => if c == '_' then ' ' else c)))

/-- The accuracy summary attached to a comparison (interface
ComparisonData.accuracy on the compare page). -/
structure AccuracySummary where
  mae : ℚ
  rmse : ℝ
  exact_matches : ℕ
  exact_match_rate : ℚ
  within_one : ℕ
  within_one_rate : ℚ
  within_three : ℕ
  within_three_rate : ℚ
  total_drivers : ℕ

/-- A count turned into a rate over the matched-driver total, reported
as 0 when the total is 0. -/
def rate (count total : ℕ) : ℚ :=
  if total = 0 then 0 else (count : ℚ) / (total : ℚ)

/-- Modelled from the spec: the accuracy summary computation of
buildComparison. The front-end under src only receives this summary
from the backend compare endpoint, which is not part of the repository
sources; the spec states MAE is the mean of absolute errors, RMSE the
square root of the mean of squared errors, the counts threshold the
absolute error at 0, 1 and 3, rates are count over matched-count, and a
matched-count of 0 must report 0 everywhere rather than NaN. -/
noncomputable def accuracySummary (records : List ComparisonRow) :
    AccuracySummary :=
  let total := records.length
  let exact := records.countP (fun r => r.error == 0)
  let withinOne := records.countP (fun r => decide (|r.error| ≤ 1))
  let withinThree := records.countP (fun r => decide (|r.error| ≤ 3))
  let mae : ℚ :=
    if total = 0 then 0
    else ((records.map (fun r => ((r.absError : ℚ)))).sum) / (total : ℚ)
  let mse : ℚ :=
    if total = 0 then 0
    else ((records.map (fun r => ((r.error : ℚ)) ^ 2)).sum) / (total : ℚ)
  { mae := mae
    rmse := Real.sqrt ((mse : ℚ) : ℝ)
    exact_matches := exact
    exact_match_rate := rate exact total
    within_one := withinOne
    within_one_rate := rate withinOne total
    within_three := withinThree
    within_three_rate := rate withinThree total
    total_drivers := total }

/-- Modelled from the spec: buildComparison pairs the comparison list
derived in the front-end with the accuracy summary; with actuals absent
it returns the empty list and no summary. -/
noncomputable def buildComparison (predictions : List DriverPrediction)
    (actuals : Option (List ActualResult)) :
    List ComparisonRow × Option AccuracySummary :=
  match actuals with
  | none => ([], none)
  | some acts =>
    (comparisonTable predictions (some acts),
     some (accuracySummary (comparisonTable predictions (some acts))))

/-! Lemmas about the geocoordinate resolver. -/

/-- A successful findKey lookup returns one of the table values. -/
theorem findKey_mem_values {s : String} {m : List (String × Coord)}
    {c : Coord} (h : findKey s m = some c) : c ∈ m.map Prod.snd := by
  unfold findKey at h
  split at h
  · cases h
  · split at h
    next kv hkv =>
      injection h with h
      subst h
      exact List.mem_map_of_mem Prod.snd (List.mem_of_find?_eq_some hkv)
    next =>
      split at h
      next kv hkv =>
        injection h with h
        subst h
        exact List.mem_map_of_mem Prod.snd (List.mem_of_find?_eq_some hkv)
      next => cases h

/-- The country chain returns a country-table value or the default. -/
theorem resolveCountry_mem (country : String) :
    resolveCountry country ∈
      COUNTRY_COORDINATES.map Prod.snd ++ [((20000000 : Int), (0 : Int))] := by
  unfold resolveCountry
  split
  next kv hkv =>
    exact List.mem_append_left _
      (List.mem_map_of_mem Prod.snd (List.mem_of_find?_eq_some hkv))
  next =>
    split
    next c hc => exact List.mem_append_left _ (findKey_mem_values hc)
    next => exact List.mem_append_right _ (by simp)

/-- Every latitude/longitude value appearing in the tables or the
default is geographically finite. -/
theorem allCoords_bounded : ∀ c ∈ allCoords,
    -90000000 ≤ c.1 ∧ c.1 ≤ 90000000 ∧
    -180000000 ≤ c.2 ∧ c.2 ≤ 180000000 := by decide

/-- Claim C1: for every RaceInfo value, with arbitrary (possibly empty
or unmatched) circuit, location and country strings, getRaceCoordinates
is total: it returns a coordinate pair drawn from the static tables or
the default fallback, and both components are finite in-range
latitude/longitude values (in micro-degrees). -/
theorem getRaceCoordinates_total (race : RaceInfo) :
    getRaceCoordinates race ∈ allCoords ∧
    -90000000 ≤ (getRaceCoordinates race).1 ∧
    (getRaceCoordinates race).1 ≤ 90000000 ∧
    -180000000 ≤ (getRaceCoordinates race).2 ∧
    (getRaceCoordinates race).2 ≤ 180000000 := by
  have hmem : getRaceCoordinates race ∈ allCoords := by
    unfold getRaceCoordinates
    split
    next c hc =>
      exact List.mem_append_left _ (findKey_mem_values hc)
    next =>
      split
      next c hc =>
        exact List.mem_append_left _ (findKey_mem_values hc)
      next =>
        exact List.mem_append_right _ (resolveCountry_mem race.country)
  exact ⟨hmem, allCoords_bounded _ hmem⟩

/-- The lowered circuit-table keys are pairwise distinct, so a
case-insensitive exact match identifies a unique table entry. -/
theorem circuit_keys_lower_nodup :
    (CIRCUIT_COORDINATES.map (fun kv => toLowerStr kv.1)).Nodup := by decide

/-- No circuit-table key is empty. -/
theorem circuit_keys_nonempty :
    ∀ kv ∈ CIRCUIT_COORDINATES, toLowerStr kv.1 ≠ "" := by decide

/-- If a search string equals some table key case-insensitively, and
the lowered table keys are distinct and nonempty, findKey answers from
the exact-match pass with exactly the value of that key. -/
theorem findKey_exact {s k : String} {c : Coord}
    {m : List (String × Coord)}
    (hnodup : (m.map (fun kv => toLowerStr kv.1)).Nodup)
    (hne : ∀ kv ∈ m, toLowerStr kv.1 ≠ "")
    (hk : (k, c) ∈ m) (hlow : toLowerStr s = toLowerStr k) :
    findKey s m = some c := by
  have hs : s ≠ "" := by
    intro h
    subst h
    exact hne _ hk (by rw [← hlow]; rfl)
  unfold findKey
  rw [if_neg hs]
  have hex : ∃ x, x ∈ m ∧ (toLowerStr x.1 == toLowerStr s) = true :=
    ⟨(k, c), hk, by simp [hlow]⟩
  obtain ⟨kv, hfind⟩ :=
    Option.isSome_iff_exists.mp (List.find?_isSome.mpr hex)
  rw [hfind]
  have hkv_eq : toLowerStr kv.1 = toLowerStr s := by
    simpa using List.find?_some hfind
  have : kv = (k, c) :=
    List.inj_on_of_nodup_map hnodup (List.mem_of_find?_eq_some hfind) hk
      (by rw [hkv_eq, hlow])
  rw [this]

/-- Claim C2: for every RaceInfo whose circuit field is exactly equal,
case-insensitively, to a key of the static circuit-coordinate table,
getRaceCoordinates returns the coordinate pair of that key, never falling
through to partial matching, the location field, the country table or
the default fallback. -/
theorem getRaceCoordinates_exact_circuit (race : RaceInfo) (k : String)
    (c : Coord) (hk : (k, c) ∈ CIRCUIT_COORDINATES)
    (hlow : toLowerStr race.circuit = toLowerStr k) :
    getRaceCoordinates race = c := by
  have h1 : findKey race.circuit CIRCUIT_COORDINATES = some c :=
    findKey_exact circuit_keys_lower_nodup circuit_keys_nonempty hk hlow
  simp [getRaceCoordinates, h1]

/-- Witness for claim C2: a circuit field differing from the key
Monaco only in case resolves to the Monaco coordinates. -/
theorem getRaceCoordinates_exact_circuit_witness :
    getRaceCoordinates ⟨0, "", "", "MONACO", "", "", 0, "", 0⟩ =
      (43734722, 7420556) :=
  getRaceCoordinates_exact_circuit _ "Monaco" _ (by decide) (by decide)

/-- If a search string matches no key of a table, exactly or partially,
findKey returns none on that table. -/
theorem findKey_none_of_no_match {s : String} {m : List (String × Coord)}
    (h : ∀ kv ∈ m, keyMatches s kv.1 = false) : findKey s m = none := by
  unfold findKey
  by_cases hs : s = ""
  · rw [if_pos hs]
  · rw [if_neg hs]
    have h1 : m.find? (fun kv => toLowerStr kv.1 == toLowerStr s) = none := by
      rw [List.find?_eq_none]
      intro kv hkv hbeq
      have hfalse := h kv hkv
      simp only [keyMatches, Bool.or_eq_false_iff] at hfalse
      exact absurd hbeq (by simp [hfalse.1.1])
    rw [h1]
    have h2 : m.find? (fun kv =>
        strIncludes (toLowerStr s) (toLowerStr kv.1) ||
        strIncludes (toLowerStr kv.1) (toLowerStr s)) = none := by
      rw [List.find?_eq_none]
      intro kv hkv hb
      have hfalse := h kv hkv
      simp only [keyMatches, Bool.or_eq_false_iff] at hfalse
      simp only [Bool.or_eq_true] at hb
      rcases hb with hb | hb
      · rw [hfalse.1.2] at hb
        cases hb
      · rw [hfalse.2] at hb
        cases hb
    rw [h2]

/-- Claim C8: for every RaceInfo whose circuit and location match no
circuit-table key exactly or partially and whose country matches no
country-table key exactly or partially, getRaceCoordinates returns the
default coordinate, which is 20.0 degrees latitude and 0.0 degrees
longitude, in micro-degrees (20000000, 0). -/
theorem getRaceCoordinates_default (race : RaceInfo)
    (h1 : ∀ kv ∈ CIRCUIT_COORDINATES, keyMatches race.circuit kv.1 = false)
    (h2 : ∀ kv ∈ CIRCUIT_COORDINATES, keyMatches race.location kv.1 = false)
    (h3 : ∀ kv ∈ COUNTRY_COORDINATES, keyMatches race.country kv.1 = false) :
    getRaceCoordinates race = (20000000, 0) := by
  have hc := findKey_none_of_no_match h1
  have hl := findKey_none_of_no_match h2
  have hk := findKey_none_of_no_match h3
  have hexact : COUNTRY_COORDINATES.find?
      (fun kv => kv.1 == race.country) = none := by
    rw [List.find?_eq_none]
    intro kv hkv hbeq
    have heq : kv.1 = race.country := by simpa using hbeq
    have hfalse := h3 kv hkv
    rw [← heq] at hfalse
    simp [keyMatches] at hfalse
  simp [getRaceCoordinates, resolveCountry, hc, hl, hk, hexact]

/-- Witness for claim C8: a race whose three fields match nothing falls
to the default coordinate. -/
theorem getRaceCoordinates_default_witness :
    getRaceCoordinates ⟨0, "", "", "qq", "qq", "qq", 0, "", 0⟩ =
      (20000000, 0) :=
  getRaceCoordinates_default _ (by decide) (by decide) (by decide)

/-- Claim C10: an empty search string never matches any table key in
findKey, neither exactly nor partially, even though the empty string is
a substring of every key; hence a RaceInfo with empty circuit and
location fields is resolved from its country field alone, through the
country chain ending in the default coordinate. -/
theorem findKey_empty_country_only :
    (∀ m : List (String × Coord), findKey "" m = none) ∧
    ∀ race : RaceInfo, race.circuit = "" → race.location = "" →
      getRaceCoordinates race = resolveCountry race.country := by
  constructor
  · intro m
    rfl
  · intro race hcirc hloc
    unfold getRaceCoordinates
    rw [hcirc, hloc]
    rfl

/-- Witness for claim C10: a race with empty circuit and location is
resolved from its country field alone. -/
theorem findKey_empty_country_only_witness :
    getRaceCoordinates ⟨0, "", "", "", "", "Japan", 0, "", 0⟩ =
      resolveCountry "Japan" :=
  findKey_empty_country_only.2 ⟨0, "", "", "", "", "Japan", 0, "", 0⟩ rfl rfl

/-! Lemmas about the comparison view-model. -/

/-- Decomposition of membership in the comparison table: every row
comes from a prediction joined with the actual result found for its
driver identifier. -/
theorem mem_comparisonTable {P : List DriverPrediction}
    {A : List ActualResult} {r : ComparisonRow}
    (h : r ∈ comparisonTable P (some A)) :
    ∃ p ∈ P, ∃ a ∈ A, a.driverRef = p.driverRef ∧
      r = ⟨p.driverRef, p.team, p.predicted_position, a.finish_position,
           p.predicted_position - a.finish_position,
           |p.predicted_position - a.finish_position|⟩ := by
  unfold comparisonTable at h
  have h2 : r ∈ P.filterMap (rowFor A) :=
    (List.perm_insertionSort rowLE _).mem_iff.mp h
  obtain ⟨p, hp, hf⟩ := List.mem_filterMap.mp h2
  unfold rowFor at hf
  rcases hfind : A.find? (fun a => a.driverRef == p.driverRef) with _ | a
  · rw [hfind] at hf
    cases hf
  · rw [hfind] at hf
    injection hf with hf
    refine ⟨p, hp, a, List.mem_of_find?_eq_some hfind, ?_, hf.symm⟩
    simpa using List.find?_some hfind

/-- A prediction yields a row exactly when some actual result carries
its driver identifier. -/
theorem rowFor_isSome (A : List ActualResult) (p : DriverPrediction) :
    (rowFor A p).isSome = A.any (fun a => a.driverRef == p.driverRef) := by
  unfold rowFor
  rcases hfind : A.find? (fun a => a.driverRef == p.driverRef) with _ | a
  · rw [hfind]
    rw [List.find?_eq_none] at hfind
    simp only [Option.isSome_none]
    symm
    rw [List.any_eq_false]
    exact hfind
  · rw [hfind]
    simp only [Option.isSome_some]
    symm
    rw [List.any_eq_true]
    have hpa := List.find?_some hfind
    exact ⟨a, List.mem_of_find?_eq_some hfind, hpa⟩

/-- Claim C3: for all prediction lists P and actual-result lists A such
that every driver identifier in P also appears in A, the comparison
table built from P and A has exactly the length of P and is sorted by
ascending actual finishing position. -/
theorem comparisonTable_length_sorted (P : List DriverPrediction)
    (A : List ActualResult)
    (h : ∀ p ∈ P, ∃ a ∈ A, a.driverRef = p.driverRef) :
    (comparisonTable P (some A)).length = P.length ∧
    (comparisonTable P (some A)).Sorted
      (fun x y : ComparisonRow => x.actual ≤ y.actual) := by
  constructor
  · unfold comparisonTable
    rw [List.length_insertionSort, List.length_filterMap_eq_countP,
      List.countP_eq_length]
    intro p hp
    obtain ⟨a, ha, heq⟩ := h p hp
    rw [rowFor_isSome, List.any_eq_true]
    exact ⟨a, ha, by simp [heq]⟩
  · exact List.Pairwise.imp (fun hab => hab)
      (List.sorted_insertionSort rowLE _)

/-- Witness for claim C3: the end-to-end example of the spec, with
drivers A and B swapping positions 1 and 2. -/
theorem comparisonTable_length_sorted_witness :
    (comparisonTable
        [⟨"A", "A", "T1", 1, none⟩, ⟨"B", "B", "T2", 2, none⟩]
        (some [⟨"A", "A", "T1", 2, none⟩, ⟨"B", "B", "T2", 1, none⟩])).length =
      ([⟨"A", "A", "T1", 1, none⟩, ⟨"B", "B", "T2", 2, none⟩] :
        List DriverPrediction).length ∧
    (comparisonTable
        [⟨"A", "A", "T1", 1, none⟩, ⟨"B", "B", "T2", 2, none⟩]
        (some [⟨"A", "A", "T1", 2, none⟩, ⟨"B", "B", "T2", 1, none⟩])).Sorted
      (fun x y : ComparisonRow => x.actual ≤ y.actual) :=
  comparisonTable_length_sorted _ _ (by decide)

/-- Claim C4: for every comparison record, the signed error equals the
predicted position minus the actual position and the absolute error is
the absolute value of that difference. -/
theorem comparison_error_abs (P : List DriverPrediction)
    (A : List ActualResult) :
    ∀ r ∈ comparisonTable P (some A),
      r.error = r.predicted - r.actual ∧
      r.absError = |r.predicted - r.actual| := by
  intro r hr
  obtain ⟨p, hp, a, ha, hdr, rfl⟩ := mem_comparisonTable hr
  exact ⟨rfl, rfl⟩

/-- Witness for claim C4: the record of driver B in the spec example,
with predicted 2 and actual 1, has error plus one and absolute error
one. -/
theorem comparison_error_abs_witness :
    (⟨"B", "T2", 2, 1, 1, 1⟩ : ComparisonRow).error =
        (⟨"B", "T2", 2, 1, 1, 1⟩ : ComparisonRow).predicted -
          (⟨"B", "T2", 2, 1, 1, 1⟩ : ComparisonRow).actual ∧
    (⟨"B", "T2", 2, 1, 1, 1⟩ : ComparisonRow).absError =
      |(⟨"B", "T2", 2, 1, 1, 1⟩ : ComparisonRow).predicted -
        (⟨"B", "T2", 2, 1, 1, 1⟩ : ComparisonRow).actual| :=
  comparison_error_abs
    [⟨"A", "A", "T1", 1, none⟩, ⟨"B", "B", "T2", 2, none⟩]
    [⟨"A", "A", "T1", 2, none⟩, ⟨"B", "B", "T2", 1, none⟩]
    ⟨"B", "T2", 2, 1, 1, 1⟩ (by decide)

/-- Claim C5: building the comparison with actuals absent yields an
empty comparison list, an empty scatter list and no accuracy summary;
the functions return normally, so this is not an error condition. -/
theorem no_actuals_no_comparison (P : List DriverPrediction)
    (h : P ≠ []) :
    comparisonTable P none = [] ∧ scatterData P none = [] ∧
    buildComparison P none = ([], none) :=
  ⟨rfl, rfl, rfl⟩

/-- Witness for claim C5: a one-element prediction list with no actual
results yields empty outputs and no summary. -/
theorem no_actuals_no_comparison_witness :
    comparisonTable [⟨"A", "A", "T1", 1, none⟩] none = [] ∧
    scatterData [⟨"A", "A", "T1", 1, none⟩] none = [] ∧
    buildComparison [⟨"A", "A", "T1", 1, none⟩] none = ([], none) :=
  no_actuals_no_comparison _ (by decide)

/-- Claim C6: every comparison record is constructed only for driver
identifiers present in both the prediction list and the actual-result
list, and the number of records equals the number of predictions whose
driver has a matching actual result, so an unmatched prediction is
dropped silently and produces no record. -/
theorem comparison_matched_only (P : List DriverPrediction)
    (A : List ActualResult) :
    (∀ r ∈ comparisonTable P (some A),
      (∃ p ∈ P, r.driver = p.driverRef) ∧
      (∃ a ∈ A, r.driver = a.driverRef)) ∧
    (comparisonTable P (some A)).length =
      (P.filter (fun p =>
        A.any (fun a => a.driverRef == p.driverRef))).length := by
  constructor
  · intro r hr
    obtain ⟨p, hp, a, ha, hdr, rfl⟩ := mem_comparisonTable hr
    exact ⟨⟨p, hp, rfl⟩, ⟨a, ha, hdr.symm⟩⟩
  · unfold comparisonTable
    rw [List.length_insertionSort, List.length_filterMap_eq_countP,
      funext (rowFor_isSome A), List.countP_eq_length_filter]

/-- Witness for claim C6: driver C has no actual result and produces no
record, while driver A produces one. -/
theorem comparison_matched_only_witness :
    (∀ r ∈ comparisonTable
        [⟨"A", "A", "T1", 1, none⟩, ⟨"C", "C", "T3", 3, none⟩]
        (some [⟨"A", "A", "T1", 2, none⟩]),
      (∃ p ∈ ([⟨"A", "A", "T1", 1, none⟩, ⟨"C", "C", "T3", 3, none⟩] :
          List DriverPrediction), r.driver = p.driverRef) ∧
      (∃ a ∈ ([⟨"A", "A", "T1", 2, none⟩] : List ActualResult),
        r.driver = a.driverRef)) ∧
    (comparisonTable
        [⟨"A", "A", "T1", 1, none⟩, ⟨"C", "C", "T3", 3, none⟩]
        (some [⟨"A", "A", "T1", 2, none⟩])).length =
      (([⟨"A", "A", "T1", 1, none⟩, ⟨"C", "C", "T3", 3, none⟩] :
          List DriverPrediction).filter (fun p =>
        ([⟨"A", "A", "T1", 2, none⟩] : List ActualResult).any
          (fun a => a.driverRef == p.driverRef))).length :=
  comparison_matched_only _ _

/-! Lemmas about the accuracy summary and name formatting. -/

/-- A rate is never negative. -/
theorem rate_nonneg (c t : ℕ) : 0 ≤ rate c t := by
  unfold rate
  split
  · exact le_refl 0
  · positivity

/-- A rate of a count bounded by the total is at most one. -/
theorem rate_le_one {c t : ℕ} (h : c ≤ t) : rate c t ≤ 1 := by
  unfold rate
  split
  · exact zero_le_one
  · next ht =>
    rw [div_le_one (by exact_mod_cast Nat.pos_of_ne_zero ht)]
    exact_mod_cast h

/-- A rate is the count divided by the total, also at total zero where
both sides are zero. -/
theorem rate_eq_div (c t : ℕ) : rate c t = (c : ℚ) / (t : ℚ) := by
  unfold rate
  split
  · next ht => subst ht; simp
  · rfl

/-- Claim C7: every rate of the accuracy summary lies in the closed
interval from 0 to 1 and equals its count divided by the matched-driver
count; when the matched-driver count is 0, the mean absolute error, the
root-mean-square error and all rates are reported as 0, never as an
undefined value. -/
theorem accuracySummary_rates (records : List ComparisonRow) :
    (0 ≤ (accuracySummary records).exact_match_rate ∧
      (accuracySummary records).exact_match_rate ≤ 1) ∧
    (0 ≤ (accuracySummary records).within_one_rate ∧
      (accuracySummary records).within_one_rate ≤ 1) ∧
    (0 ≤ (accuracySummary records).within_three_rate ∧
      (accuracySummary records).within_three_rate ≤ 1) ∧
    (accuracySummary records).exact_match_rate =
      ((accuracySummary records).exact_matches : ℚ) /
        ((accuracySummary records).total_drivers : ℚ) ∧
    (accuracySummary records).within_one_rate =
      ((accuracySummary records).within_one : ℚ) /
        ((accuracySummary records).total_drivers : ℚ) ∧
    (accuracySummary records).within_three_rate =
      ((accuracySummary records).within_three : ℚ) /
        ((accuracySummary records).total_drivers : ℚ) ∧
    ((accuracySummary records).total_drivers = 0 →
      (accuracySummary records).mae = 0 ∧
      (accuracySummary records).rmse = 0 ∧
      (accuracySummary records).exact_match_rate = 0 ∧
      (accuracySummary records).within_one_rate = 0 ∧
      (accuracySummary records).within_three_rate = 0) := by
  refine ⟨⟨rate_nonneg _ _, rate_le_one (List.countP_le_length _)⟩,
    ⟨rate_nonneg _ _, rate_le_one (List.countP_le_length _)⟩,
    ⟨rate_nonneg _ _, rate_le_one (List.countP_le_length _)⟩,
    rate_eq_div _ _, rate_eq_div _ _, rate_eq_div _ _, ?_⟩
  intro h
  have hlen : records.length = 0 := h
  have hrec : records = [] := List.length_eq_zero.mp hlen
  subst hrec
  refine ⟨rfl, ?_, rfl, rfl, rfl⟩
  show Real.sqrt ((0 : ℚ) : ℝ) = 0
  rw [Rat.cast_zero, Real.sqrt_zero]

/-- Witness for claim C7: with no matched drivers every reported
metric is zero. -/
theorem accuracySummary_rates_witness :
    (accuracySummary []).mae = 0 ∧ (accuracySummary []).rmse = 0 ∧
    (accuracySummary []).exact_match_rate = 0 ∧
    (accuracySummary []).within_one_rate = 0 ∧
    (accuracySummary []).within_three_rate = 0 :=
  (accuracySummary_rates []).2.2.2.2.2.2 rfl

/-- The title-casing scan preserves the number of characters. -/
theorem titleCaseGo_length (b : Bool) (l : List Char) :
    (titleCaseGo b l).length = l.length := by
  induction l generalizing b with
  | nil => rfl
  | cons c cs ih => simp [titleCaseGo, ih]

/-- Claim C9: formatDriverName is a pure total function defined for
every input string, character-for-character (it replaces underscores
with spaces and title-cases each word without changing the length); in
particular it sends max underscore verstappen to Max Verstappen and the
empty string to the empty string. -/
theorem formatDriverName_spec :
    (∀ s : String, (formatDriverName s).length = s.length) ∧
    formatDriverName "max_verstappen" = "Max Verstappen" ∧
    formatDriverName "" = "" := by
  refine ⟨?_, by decide, rfl⟩
  intro s
  show (titleCaseGo false
      (s.data.map (fun c => if c == '_' then ' ' else c))).length =
    s.data.length
  rw [titleCaseGo_length, List.length_map]

end F1Pulse
